import Mathlib

/-!
Shallow embedding of the UniHaven reservation lifecycle engine
(src/unihaven/permissions.py, views.py, serializers.py, models.py).

Dates are modelled as natural numbers (day counts); Python date order is a
total order, so only comparisons matter.  Universities are identified by
their unique code string (the source compares them by primary key or by
case-insensitive code; codes are unique, so code equality is pk equality).
Django querysets over reservations and members are modelled as lists.
Each distinct error-raise site in the source becomes one constructor of
ApiError; a constructor carries exactly the dynamic data that the raised
message interpolates, so two raise sites are distinguishable in the model
iff their messages are distinguishable in the source.
-/

deriving instance DecidableEq for Except

/-- Reservation.STATUS_CHOICES in models.py. -/
inductive RStatus where
  | pending
  | confirmed
  | cancelled
  | completed
deriving DecidableEq, Repr

/-- Member model (models.py): uid is the primary key, university a foreign key
(modelled by the university code, which is unique). -/
structure Member where
  uid : String
  universityCode : String
deriving DecidableEq, Repr

/-- Accommodation model (models.py): the fields the reservation engine reads.
universities models available_at_universities as the list of codes. -/
structure Accommodation where
  id : Nat
  availableFrom : Nat
  availableUntil : Nat
  universities : List String
deriving DecidableEq, Repr

/-- Reservation model (models.py): the fields the lifecycle engine reads and
writes.  cancelledBy models the nullable cancelled_by column. -/
structure Reservation where
  id : Nat
  memberUid : String
  universityCode : String
  accommodationId : Nat
  startDate : Nat
  endDate : Nat
  status : RStatus
  cancelledBy : Option String
deriving DecidableEq, Repr

/-- One constructor per distinct raise site of ValidationError or
PermissionDenied in the embedded code paths. -/
inductive ApiError where
  /-- get_role_or_403 in views.py: invalid or missing role information. -/
  | roleInvalid
  /-- ReservationSerializer.validate: end date must be after start date. -/
  | endBeforeStart
  /-- ReservationSerializer.validate: accommodation not available for the
  selected dates (single message for both window-bound violations). -/
  | notAvailableForDates
  /-- ReservationSerializer.validate: already reserved for the selected dates. -/
  | alreadyReservedDates
  /-- perform_create: specialists must provide member_uid in the body. -/
  | specialistNeedsMemberUid
  /-- perform_create, specialist path: member with the UID not found. -/
  | memberNotFound (uid : String)
  /-- perform_create, member path: member not found or not of the university. -/
  | memberNotFoundAtUniversity (uid : String) (uni : String)
  /-- perform_create: invalid role type for creating a reservation. -/
  | invalidRoleTypeForCreate
  /-- perform_create: accommodation not available at the university. -/
  | accommodationNotAvailableAtUniversity (accomId : Nat) (uni : String)
  /-- perform_create: overlapping reservation for the selected dates. -/
  | overlappingReservation
  /-- perform_update: cannot change status from the current terminal status. -/
  | cannotChangeStatusFrom (st : RStatus)
  /-- perform_update: cannot determine user role for cancellation. -/
  | cannotDetermineRoleForCancellation
  /-- perform_update: members can only cancel reservations that are pending. -/
  | memberOnlyCancelPending (st : RStatus)
  /-- RatingViewSet.perform_create: only members can create ratings. -/
  | onlyMembersCreateRatings
  /-- RatingViewSet.perform_create: you can only rate your own reservations. -/
  | onlyRateOwnReservations
  /-- RatingViewSet.perform_create: cannot rate a reservation from a different
  university. -/
  | differentUniversityRating
  /-- RatingViewSet.perform_create: you can only rate completed reservations. -/
  | onlyRateCompleted
  /-- RatingViewSet.perform_create: this reservation has already been rated. -/
  | alreadyRated
deriving DecidableEq, Repr

/-- Python str.lower for one ASCII character. -/
def lowerChar (c : Char) : Char :=
  if 'A' ≤ c ∧ c ≤ 'Z' then Char.ofNat (c.toNat + 32) else c

/-- Python str.lower restricted to ASCII input, as used on role tokens and
university codes in the source. -/
def lowerStr (s : String) : String := String.mk (s.toList.map lowerChar)

/-- Python str.split with a one-character separator, on the character list:
empty input gives one empty part, separators at the border give empty parts. -/
def splitColonsAux : List Char → List (List Char)
  | [] => [[]]
  | c :: rest =>
    let r := splitColonsAux rest
    if c = ':' then [] :: r
    else
      match r with
      | h :: t => (c :: h) :: t
      | [] => [[c]]

/-- role_param.split of the source, producing the colon-delimited parts. -/
def splitColons (s : String) : List String :=
  (splitColonsAux s.toList).map (fun l => String.mk l)

/-- get_role_info_from_request in permissions.py: parse the role query
parameter into (university_code, role_type, role_id); the None-triple failure
return is modelled as none.  Three parts are accepted with any role type;
two parts only when the role type is specialist. -/
def get_role_info_from_request (tok : String) : Option (String × String × Option String) :=
  if tok = "" then none
  else
    match splitColons tok with
    | [u, t, i] => some (lowerStr u, lowerStr t, some i)
    | [u, t] => if lowerStr t = "specialist" then some (lowerStr u, lowerStr t, none) else none
    | _ => none

/-- get_role_or_403 in views.py: parse the role and reject when the university
code or the role type is missing (Python falsy covers None and the empty
string). -/
def get_role_or_403 (tok : String) : Option (String × String × Option String) :=
  match get_role_info_from_request tok with
  | some (u, t, i) => if u = "" ∨ t = "" then none else some (u, t, i)
  | none => none

/-- IsMember.has_permission in permissions.py: role type member and a role id
that is not None (an empty-string id passes this check). -/
def IsMember.has_permission (tok : String) : Bool :=
  match get_role_info_from_request tok with
  | some (_, t, i) => decide (t = "member") && i.isSome
  | none => false

/-- CanAccessReservationObject.has_object_permission in permissions.py: members
may act on their own reservations, specialists on reservations of their
university; DELETE is additionally denied on terminal statuses. -/
def CanAccessReservationObject.has_object_permission
    (tok : String) (methodDelete : Bool) (obj : Reservation) : Bool :=
  match get_role_info_from_request tok with
  | none => false
  | some (u, t, i) =>
    if u = "" then false
    else
      let roleOk : Bool :=
        if t = "member" then decide (i = some obj.memberUid)
        else if t = "specialist" then decide (lowerStr obj.universityCode = lowerStr u)
        else false
      if !roleOk then false
      else if methodDelete ∧ (obj.status = RStatus.completed ∨ obj.status = RStatus.cancelled) then
        false
      else true

/-- One existing reservation blocks the candidate range [s, e) when it is for
the same accommodation, has an active status, and the ranges overlap; the
filter in perform_create (views.py) and in ReservationSerializer.validate:
accommodation equal, status in pending or confirmed, start_date lt e,
end_date gt s. -/
def blocksRange (accomId s e : Nat) (r : Reservation) : Bool :=
  decide (r.accommodationId = accomId)
    && (decide (r.status = RStatus.pending) || decide (r.status = RStatus.confirmed))
    && decide (r.startDate < e)
    && decide (s < r.endDate)

/-- The exists-an-overlap test run against the reservation store. -/
def overlapConflict (accomId s e : Nat) (rs : List Reservation) : Bool :=
  rs.any (blocksRange accomId s e)

/-- ReservationSerializer.validate in serializers.py, for requests carrying
both dates: end must be after start, the range must sit inside the
availability window (one undivided error for both bounds), and no active
reservation may overlap; excludeId models the exclude(id=instance.id) applied
when updating. -/
def reservation_validate (accom : Accommodation) (s e : Nat)
    (rs : List Reservation) (excludeId : Option Nat) : Except ApiError Unit :=
  if e ≤ s then Except.error ApiError.endBeforeStart
  else if s < accom.availableFrom ∨ accom.availableUntil < e then
    Except.error ApiError.notAvailableForDates
  else
    let conflict := rs.any (fun r =>
      blocksRange accom.id s e r &&
        (match excludeId with
         | some ei => decide (r.id ≠ ei)
         | none => true))
    if conflict then Except.error ApiError.alreadyReservedDates else Except.ok ()

/-- Tail of ReservationViewSet.perform_create after the member is resolved:
require the accommodation to be offered at the university of that member,
re-run the overlap test, and insert a pending reservation carrying the
university of the member (factored out of perform_create for proofs). -/
def perform_create_tail (accom : Accommodation) (s e : Nat) (rs : List Reservation)
    (newId : Nat) (mem : Member) : Except ApiError Reservation :=
  if accom.universities.contains mem.universityCode then
    if overlapConflict accom.id s e rs then
      Except.error ApiError.overlappingReservation
    else
      Except.ok ⟨newId, mem.uid, mem.universityCode, accom.id, s, e, RStatus.pending, none⟩
  else Except.error (ApiError.accommodationNotAvailableAtUniversity accom.id mem.universityCode)

/-- ReservationViewSet.perform_create in views.py: resolve the role, pick the
member (the principal itself for a member role, the body-supplied member_uid
looked up by UID alone for a specialist role), then run perform_create_tail. -/
def perform_create (tok : String) (bodyMemberUid : Option String)
    (members : List Member) (accom : Accommodation) (s e : Nat)
    (rs : List Reservation) (newId : Nat) : Except ApiError Reservation :=
  match get_role_or_403 tok with
  | none => Except.error ApiError.roleInvalid
  | some (uniCode, roleType, roleId) =>
    let proceed : Member → Except ApiError Reservation := perform_create_tail accom s e rs newId
    if roleType = "member" then
      let uid := roleId.getD ""
      match members.find? (fun m =>
          decide (m.uid = uid) && decide (lowerStr m.universityCode = lowerStr uniCode)) with
      | none => Except.error (ApiError.memberNotFoundAtUniversity uid uniCode)
      | some mem => proceed mem
    else if roleType = "specialist" then
      match bodyMemberUid with
      | none => Except.error ApiError.specialistNeedsMemberUid
      | some uid =>
        if uid = "" then Except.error ApiError.specialistNeedsMemberUid
        else
          match members.find? (fun m => decide (m.uid = uid)) with
          | none => Except.error (ApiError.memberNotFound uid)
          | some mem => proceed mem
    else Except.error ApiError.invalidRoleTypeForCreate

/-- A POST to the reservation endpoint: DRF runs serializer validation (with no
instance, so no id is excluded) and then ReservationViewSet.perform_create. -/
def create_reservation (tok : String) (bodyMemberUid : Option String)
    (members : List Member) (accom : Accommodation) (s e : Nat)
    (rs : List Reservation) (newId : Nat) : Except ApiError Reservation :=
  match reservation_validate accom s e rs none with
  | Except.error er => Except.error er
  | Except.ok _ => perform_create tok bodyMemberUid members accom s e rs newId

/-- ReservationViewSet.perform_update in views.py for a PATCH carrying only a
status (so ReservationSerializer.validate skips its date checks): terminal
statuses reject a differing new status; a change to cancelled resolves the
role and applies the member-only-pending restriction; every successful save
writes the new status and writes cancelled_by with the resolved cancelling
user type, which is None on every non-cancellation path. -/
def perform_update (tok : String) (inst : Reservation) (newStatusOpt : Option RStatus) :
    Except ApiError Reservation :=
  let oldStatus := inst.status
  let newStatus := newStatusOpt.getD oldStatus
  if (oldStatus = RStatus.completed ∨ oldStatus = RStatus.cancelled) ∧ oldStatus ≠ newStatus then
    Except.error (ApiError.cannotChangeStatusFrom oldStatus)
  else
    if newStatus = RStatus.cancelled ∧ oldStatus ≠ RStatus.cancelled then
      match get_role_or_403 tok with
      | none => Except.error ApiError.cannotDetermineRoleForCancellation
      | some (_, roleType, _) =>
        if roleType = "member" ∧ oldStatus ≠ RStatus.pending then
          Except.error (ApiError.memberOnlyCancelPending oldStatus)
        else
          Except.ok { inst with status := newStatus, cancelledBy := some roleType }
    else
      Except.ok { inst with status := newStatus, cancelledBy := none }

/-- Outcome of a PATCH against the reservation detail endpoint. -/
inductive PatchResult where
  | forbidden
  | rejected (e : ApiError)
  | updated (r : Reservation)
deriving DecidableEq, Repr

/-- A status PATCH on a reservation: the object permission gate followed by
perform_update; 403 on permission failure, 400 on a validation error. -/
def transition (tok : String) (inst : Reservation) (newStatusOpt : Option RStatus) :
    PatchResult :=
  if CanAccessReservationObject.has_object_permission tok false inst then
    match perform_update tok inst newStatusOpt with
    | Except.error e => PatchResult.rejected e
    | Except.ok r => PatchResult.updated r
  else PatchResult.forbidden

/-- RatingViewSet.perform_create in views.py: the caller must resolve to the
member owning the reservation, from the university of the reservation; the
reservation must be completed and not yet rated; alreadyRated models
hasattr(reservation, rating).  The reservation itself is never written. -/
def rating_perform_create (tok : String) (res : Reservation) (alreadyRated : Bool) :
    Except ApiError Unit :=
  match get_role_or_403 tok with
  | none => Except.error ApiError.roleInvalid
  | some (uniCode, roleType, roleId) =>
    if roleType ≠ "member" then Except.error ApiError.onlyMembersCreateRatings
    else if roleId ≠ some res.memberUid then Except.error ApiError.onlyRateOwnReservations
    else if lowerStr res.universityCode ≠ lowerStr uniCode then
      Except.error ApiError.differentUniversityRating
    else if res.status ≠ RStatus.completed then Except.error ApiError.onlyRateCompleted
    else if alreadyRated then Except.error ApiError.alreadyRated
    else Except.ok ()

/-- Reservation.cancel in models.py: a no-op returning self when already
cancelled, otherwise set status cancelled and record the acting user type. -/
def Reservation.cancel (r : Reservation) (userType : String) : Reservation :=
  if r.status = RStatus.cancelled then r
  else { r with status := RStatus.cancelled, cancelledBy := some userType }

/-- Member.cancelReservation in models.py: only the owning member may cancel;
an already cancelled or completed reservation is returned unchanged; otherwise
Reservation.cancel runs with user type member. -/
def Member.cancelReservation (m : Member) (r : Reservation) : Except String Reservation :=
  if r.memberUid ≠ m.uid then Except.error "Member can only cancel their own reservations."
  else if r.status = RStatus.cancelled ∨ r.status = RStatus.completed then Except.ok r
  else Except.ok (r.cancel "member")

/-! Concrete fixtures used by counterexamples and witnesses.  Dates are day
counts; accommodation 1 is offered at HKU with availability window as noted. -/

/-- A member m1 of HKU. -/
def hkuMemberM1 : Member := ⟨"m1", "HKU"⟩

/-- Accommodation 1, offered at HKU, available on days 0 to 100. -/
def accHKU : Accommodation := ⟨1, 0, 100, ["HKU"]⟩

/-- Accommodation 1, offered at HKU, available on days 10 to 30. -/
def accWin : Accommodation := ⟨1, 10, 30, ["HKU"]⟩

/-- A pending reservation of m1 for accommodation 1 over days 10 to 20. -/
def resPendingM1 : Reservation := ⟨1, "m1", "HKU", 1, 10, 20, RStatus.pending, none⟩

/-- A confirmed reservation of m1 for accommodation 1. -/
def resConfirmedM1 : Reservation := ⟨5, "m1", "HKU", 1, 10, 20, RStatus.confirmed, none⟩

/-- A completed reservation of m1 for accommodation 1. -/
def resCompletedM1 : Reservation := ⟨2, "m1", "HKU", 1, 10, 20, RStatus.completed, none⟩

/-- A reservation of m1 already cancelled by the member, so cancelled_by
records member. -/
def resCancelledMem : Reservation := ⟨4, "m1", "HKU", 1, 10, 20, RStatus.cancelled, some "member"⟩

/-- An existing pending reservation of another member for accommodation 1
over days 11 to 20, used as the blocking reservation in the overlap witness. -/
def resOverlapExisting : Reservation := ⟨7, "m0", "HKU", 1, 11, 20, RStatus.pending, none⟩

/-- A pending reservation of a CU member, used in the confirm witness. -/
def resPendingCU : Reservation := ⟨6, "m9", "CU", 2, 10, 20, RStatus.pending, none⟩

/-! Theorems. -/

/-- The overlap test succeeds exactly when some stored reservation is for the
same accommodation, is active (pending or confirmed), and has a range
overlapping the candidate half-open range. -/
theorem overlapConflict_eq_true_iff (accomId s e : Nat) (rs : List Reservation) :
    overlapConflict accomId s e rs = true ↔
      ∃ r ∈ rs, r.accommodationId = accomId ∧
        (r.status = RStatus.pending ∨ r.status = RStatus.confirmed) ∧
        r.startDate < e ∧ s < r.endDate := by
  simp [overlapConflict, blocksRange, List.any_eq_true, and_assoc]

/-- C1 (amended): for a reservation whose status is terminal (completed or
cancelled), a PATCH requesting a different status is rejected with the
cannot-change-status error; but a PATCH resubmitting the same status is
accepted and overwrites cancelled_by with the null actor. -/
theorem terminal_status_update_rules (tok : String) (inst : Reservation) (ns : RStatus)
    (hterm : inst.status = RStatus.completed ∨ inst.status = RStatus.cancelled) :
    (ns ≠ inst.status →
       perform_update tok inst (some ns) =
         Except.error (ApiError.cannotChangeStatusFrom inst.status)) ∧
    perform_update tok inst (some inst.status) =
      Except.ok { inst with cancelledBy := none } := by
  constructor
  · intro hne
    unfold perform_update
    simp only [Option.getD_some]
    rw [if_pos ⟨hterm, Ne.symm hne⟩]
  · unfold perform_update
    simp only [Option.getD_some]
    rw [if_neg (by simp)]
    rcases hterm with h | h <;> rw [if_neg (by simp [h])]

/-- C1 (counterexample): a second cancel PATCH on an already-cancelled
reservation is not rejected: it is accepted, and the previously recorded
cancelled_by value (member) is overwritten with none. -/
theorem second_cancel_not_rejected :
    transition "hku:member:m1" resCancelledMem (some RStatus.cancelled) =
      PatchResult.updated { resCancelledMem with cancelledBy := none } ∧
    resCancelledMem.cancelledBy = some "member" := by decide

/-- C1 (witness): a cancel request on a concrete completed reservation is
rejected with the cannot-change-status error. -/
theorem terminal_status_update_rules_witness :
    perform_update "hku:specialist:1" resCompletedM1 (some RStatus.cancelled) =
      Except.error (ApiError.cannotChangeStatusFrom RStatus.completed) :=
  (terminal_status_update_rules "hku:specialist:1" resCompletedM1 RStatus.cancelled
    (Or.inl rfl)).1 (by decide)

/-- C3 (counterexample): a member PATCHing their own pending reservation to
confirmed is accepted, not rejected: perform_update has no specialist-only
rule for confirmation. -/
theorem member_confirm_accepted :
    transition "hku:member:m1" resPendingM1 (some RStatus.confirmed) =
      PatchResult.updated { resPendingM1 with status := RStatus.confirmed, cancelledBy := none } := by
  decide

/-- C3 (amended): a transition to confirmed succeeds for any principal that
passes the object-level permission (owning member or same-university
specialist) whenever the current status is pending, and is rejected only from
a terminal status; the role kind is never consulted for confirmation. -/
theorem confirm_transition_rules (tok : String) (inst : Reservation)
    (hacc : CanAccessReservationObject.has_object_permission tok false inst = true) :
    (inst.status = RStatus.pending →
       transition tok inst (some RStatus.confirmed) =
         PatchResult.updated { inst with status := RStatus.confirmed, cancelledBy := none }) ∧
    ((inst.status = RStatus.completed ∨ inst.status = RStatus.cancelled) →
       transition tok inst (some RStatus.confirmed) =
         PatchResult.rejected (ApiError.cannotChangeStatusFrom inst.status)) := by
  constructor
  · intro hp
    unfold transition
    rw [if_pos hacc]
    unfold perform_update
    simp [hp]
  · intro ht
    unfold transition
    rw [if_pos hacc]
    rcases ht with h | h <;> (unfold perform_update; simp [h])

/-- C3 (witness): a same-university specialist confirming a concrete pending
reservation succeeds. -/
theorem confirm_transition_rules_witness :
    transition "cu:specialist:2" resPendingCU (some RStatus.confirmed) =
      PatchResult.updated { resPendingCU with status := RStatus.confirmed, cancelledBy := none } :=
  (confirm_transition_rules "cu:specialist:2" resPendingCU (by decide)).1 rfl

/-- C9: both window-bound violations, start before available_from and end
after available_until, raise the identical error value: the single
not-available-for-the-selected-dates message of ReservationSerializer.validate
carries no information about which bound was violated.  The repository tests
expect two distinguishable per-field messages here. -/
theorem window_violation_single_error :
    reservation_validate accWin 5 15 [] none = Except.error ApiError.notAvailableForDates ∧
    reservation_validate accWin 25 35 [] none = Except.error ApiError.notAvailableForDates ∧
    accWin.availableFrom = 10 ∧ accWin.availableUntil = 30 := by decide

/-- C10: Reservation.cancel is a no-op on an already-cancelled reservation for
every user type, and Member.cancelReservation returns an already cancelled or
completed own reservation unchanged. -/
theorem cancel_idempotent :
    (∀ (r : Reservation) (ut : String), r.status = RStatus.cancelled → r.cancel ut = r) ∧
    (∀ (m : Member) (r : Reservation), r.memberUid = m.uid →
       r.status = RStatus.cancelled ∨ r.status = RStatus.completed →
       m.cancelReservation r = Except.ok r) := by
  constructor
  · intro r ut h
    unfold Reservation.cancel
    rw [if_pos h]
  · intro m r hm hst
    unfold Member.cancelReservation
    rw [if_neg (by simp [hm]), if_pos hst]

/-- C10 (witness): the no-op behaviour at a concrete cancelled reservation. -/
theorem cancel_idempotent_witness :
    Reservation.cancel resCancelledMem "specialist" = resCancelledMem ∧
    Member.cancelReservation hkuMemberM1 resCancelledMem = Except.ok resCancelledMem :=
  ⟨cancel_idempotent.1 resCancelledMem "specialist" rfl,
   cancel_idempotent.2 hkuMemberM1 resCancelledMem rfl (Or.inl rfl)⟩

/-- C6 (counterexample): the token xx:guest:1 does not fail resolution: the
parser returns a (xx, guest, 1) triple, validating the role type of a
three-part token nowhere. -/
theorem guest_token_resolves :
    get_role_info_from_request "xx:guest:1" = some ("xx", "guest", some "1") := by decide

/-- C6 (amended): parsing succeeds exactly for non-empty tokens of two or
three colon-delimited parts where two-part tokens require role type
specialist; three-part tokens are accepted with any role type and any id,
including an empty member id, which IsMember then accepts since it only
checks that an id is present; hku:member still fails. -/
theorem role_token_resolution_shape :
    (∀ tok : String,
       (get_role_info_from_request tok).isSome = true ↔
         (tok ≠ "" ∧
          ((splitColons tok).length = 3 ∨
           ∃ u t, splitColons tok = [u, t] ∧ lowerStr t = "specialist"))) ∧
    IsMember.has_permission "hku:member:" = true ∧
    get_role_info_from_request "hku:member" = none := by
  refine ⟨?_, by decide, by decide⟩
  intro tok
  unfold get_role_info_from_request
  by_cases h0 : tok = ""
  · simp [h0]
  · rw [if_neg h0]
    rcases hps : splitColons tok with _ | ⟨a, _ | ⟨b, _ | ⟨c, _ | ⟨d, rest⟩⟩⟩⟩ <;>
      simp [hps, h0]
    by_cases hb : lowerStr b = "specialist" <;> simp [hb]
    exact ⟨a, b, ⟨rfl, rfl⟩, hb⟩

/-- The tail of perform_create never raises the serializer already-reserved
error: its own overlap raise site is a different message. -/
theorem perform_create_tail_ne_alreadyReserved (accom : Accommodation) (s e : Nat)
    (rs : List Reservation) (nid : Nat) (mem : Member) :
    perform_create_tail accom s e rs nid mem ≠
      Except.error ApiError.alreadyReservedDates := by
  unfold perform_create_tail
  split_ifs <;> simp

/-- ReservationViewSet.perform_create never raises the serializer
already-reserved error: its own overlap raise site is a different message. -/
theorem perform_create_ne_alreadyReserved (tok : String) (b : Option String)
    (members : List Member) (accom : Accommodation) (s e : Nat)
    (rs : List Reservation) (nid : Nat) :
    perform_create tok b members accom s e rs nid ≠
      Except.error ApiError.alreadyReservedDates := by
  intro h
  unfold perform_create at h
  cases hro : get_role_or_403 tok with
  | none => rw [hro] at h; simp at h
  | some trip =>
    obtain ⟨u, t, i⟩ := trip
    rw [hro] at h
    simp only at h
    by_cases hm : t = "member"
    · rw [if_pos hm] at h
      cases hf : List.find? (fun m =>
          decide (m.uid = i.getD "") && decide (lowerStr m.universityCode = lowerStr u)) members with
      | none => rw [hf] at h; simp at h
      | some mem =>
        rw [hf] at h
        exact perform_create_tail_ne_alreadyReserved accom s e rs nid mem h
    · rw [if_neg hm] at h
      by_cases hs : t = "specialist"
      · rw [if_pos hs] at h
        cases b with
        | none => simp at h
        | some uid =>
          dsimp only at h
          by_cases hu : uid = ""
          · rw [if_pos hu] at h; simp at h
          · rw [if_neg hu] at h
            cases hf : List.find? (fun m => decide (m.uid = uid)) members with
            | none => rw [hf] at h; simp at h
            | some mem =>
              rw [hf] at h
              exact perform_create_tail_ne_alreadyReserved accom s e rs nid mem h
      · rw [if_neg hs] at h; simp at h

/-- C2: for an otherwise admissible candidate range (end after start, inside
the availability window), creation is rejected with the overlap-conflict
error exactly when some stored reservation for the same accommodation with
status pending or confirmed overlaps the half-open candidate range; cancelled
and completed reservations never block. -/
theorem reservation_overlap_iff (tok : String) (b : Option String) (members : List Member)
    (accom : Accommodation) (s e nid : Nat) (rs : List Reservation)
    (hse : s < e) (hlo : accom.availableFrom ≤ s) (hhi : e ≤ accom.availableUntil) :
    create_reservation tok b members accom s e rs nid =
        Except.error ApiError.alreadyReservedDates ↔
      ∃ r ∈ rs, r.accommodationId = accom.id ∧
        (r.status = RStatus.pending ∨ r.status = RStatus.confirmed) ∧
        r.startDate < e ∧ s < r.endDate := by
  rw [← overlapConflict_eq_true_iff accom.id s e rs]
  unfold create_reservation reservation_validate
  rw [if_neg (by omega), if_neg (by omega)]
  have hconf : (rs.any fun r =>
      blocksRange accom.id s e r &&
        (match (none : Option Nat) with
         | some ei => decide (r.id ≠ ei)
         | none => true)) = overlapConflict accom.id s e rs := by
    simp [overlapConflict]
  simp only [hconf]
  by_cases hc : overlapConflict accom.id s e rs = true
  · simp [hc]
  · simp [hc, perform_create_ne_alreadyReserved tok b members accom s e rs nid]

/-- C2 (witness): the spec scenario at a concrete store: an existing pending
reservation over days 11 to 20 blocks a candidate range of days 15 to 25. -/
theorem reservation_overlap_iff_witness :
    create_reservation "hku:member:m2" none [hkuMemberM1] accHKU 15 25 [resOverlapExisting] 9 =
      Except.error ApiError.alreadyReservedDates :=
  (reservation_overlap_iff "hku:member:m2" none [hkuMemberM1] accHKU 15 25 9
      [resOverlapExisting] (by decide) (by decide) (by decide)).mpr
    ⟨resOverlapExisting, by decide, by decide, Or.inl rfl, by decide, by decide⟩

/-- C4 (counterexample): a CU specialist naming an HKU member creates a
reservation successfully: perform_create looks the member up by UID alone and
never compares the university of the member with that of the specialist. -/
theorem specialist_cross_university_create :
    create_reservation "cu:specialist:9" (some "m1") [hkuMemberM1] accHKU 10 20 [] 5 =
      Except.ok ⟨5, "m1", "HKU", 1, 10, 20, RStatus.pending, none⟩ ∧
    lowerStr hkuMemberM1.universityCode ≠ "cu" := by decide

/-- C4 (amended): when the creator is a specialist, member_uid is required and
must resolve to an existing member of any university; creation then succeeds
(given the usual date, availability and overlap checks) with the reservation
carrying the university of the member, with no requirement that it equal
that of the specialist. -/
theorem specialist_create_rules (tok u : String) (i : Option String) (uid : String)
    (members : List Member) (mem : Member) (accom : Accommodation) (s e nid : Nat)
    (rs : List Reservation)
    (hparse : get_role_info_from_request tok = some (u, "specialist", i))
    (hu : u ≠ "")
    (huid : uid ≠ "")
    (hfind : members.find? (fun m => decide (m.uid = uid)) = some mem)
    (hoffer : accom.universities.contains mem.universityCode = true)
    (hse : s < e) (hlo : accom.availableFrom ≤ s) (hhi : e ≤ accom.availableUntil)
    (hnoov : overlapConflict accom.id s e rs = false) :
    create_reservation tok (some uid) members accom s e rs nid =
      Except.ok ⟨nid, mem.uid, mem.universityCode, accom.id, s, e, RStatus.pending, none⟩ := by
  have hrole : get_role_or_403 tok = some (u, "specialist", i) := by
    unfold get_role_or_403
    rw [hparse]
    simp [hu]
  unfold create_reservation reservation_validate
  rw [if_neg (by omega), if_neg (by omega)]
  have hconf : (rs.any fun r =>
      blocksRange accom.id s e r &&
        (match (none : Option Nat) with
         | some ei => decide (r.id ≠ ei)
         | none => true)) = overlapConflict accom.id s e rs := by
    simp [overlapConflict]
  simp only [hconf]
  rw [if_neg (by simp [hnoov])]
  unfold perform_create
  rw [hrole]
  simp only
  rw [if_neg (by decide), if_pos trivial, if_neg huid, hfind]
  unfold perform_create_tail
  dsimp only
  rw [if_pos hoffer, if_neg (by simp [hnoov])]

/-- C4 (witness): a same-university specialist creating for an existing member
over free dates succeeds. -/
theorem specialist_create_rules_witness :
    create_reservation "hku:specialist:2" (some "m1") [hkuMemberM1] accHKU 30 40 [] 8 =
      Except.ok ⟨8, "m1", "HKU", 1, 30, 40, RStatus.pending, none⟩ :=
  specialist_create_rules "hku:specialist:2" "hku" (some "2") "m1" [hkuMemberM1] hkuMemberM1
    accHKU 30 40 8 [] (by decide) (by decide) (by decide) (by decide) (by decide) (by decide)
    (by decide) (by decide) (by decide)

/-- C5: for a cancel PATCH from a non-terminal status, an owning member
succeeds exactly from pending (a confirmed reservation is rejected with the
member-only-pending error), a same-university specialist succeeds from both
pending and confirmed, and on success cancelled_by records the acting role
kind, member or specialist. -/
theorem cancellation_rules (inst : Reservation) :
    (∀ tok u : String,
       get_role_info_from_request tok = some (u, "member", some inst.memberUid) → u ≠ "" →
       ((inst.status = RStatus.pending →
           transition tok inst (some RStatus.cancelled) =
             PatchResult.updated
               { inst with status := RStatus.cancelled, cancelledBy := some "member" }) ∧
        (inst.status = RStatus.confirmed →
           transition tok inst (some RStatus.cancelled) =
             PatchResult.rejected (ApiError.memberOnlyCancelPending RStatus.confirmed)))) ∧
    (∀ (tok u : String) (i : Option String),
       get_role_info_from_request tok = some (u, "specialist", i) → u ≠ "" →
       lowerStr inst.universityCode = lowerStr u →
       (inst.status = RStatus.pending ∨ inst.status = RStatus.confirmed) →
       transition tok inst (some RStatus.cancelled) =
         PatchResult.updated
           { inst with status := RStatus.cancelled, cancelledBy := some "specialist" }) := by
  constructor
  · intro tok u hparse hu
    have hperm : CanAccessReservationObject.has_object_permission tok false inst = true := by
      unfold CanAccessReservationObject.has_object_permission
      rw [hparse]
      simp [hu]
    have hrole : get_role_or_403 tok = some (u, "member", some inst.memberUid) := by
      unfold get_role_or_403
      rw [hparse]
      simp [hu]
    constructor
    · intro hp
      unfold transition
      rw [if_pos hperm]
      unfold perform_update
      simp [hp, hrole]
    · intro hc
      unfold transition
      rw [if_pos hperm]
      unfold perform_update
      simp [hc, hrole]
  · intro tok u i hparse hu huni hst
    have hperm : CanAccessReservationObject.has_object_permission tok false inst = true := by
      unfold CanAccessReservationObject.has_object_permission
      rw [hparse]
      simp [hu, huni]
    have hrole : get_role_or_403 tok = some (u, "specialist", i) := by
      unfold get_role_or_403
      rw [hparse]
      simp [hu]
    unfold transition
    rw [if_pos hperm]
    unfold perform_update
    rcases hst with h | h <;> simp [h, hrole]

/-- C5 (witness): a member cancelling their own pending reservation and a
specialist cancelling a confirmed one both succeed with the acting role kind
recorded. -/
theorem cancellation_rules_witness :
    transition "hku:member:m1" resPendingM1 (some RStatus.cancelled) =
      PatchResult.updated
        { resPendingM1 with status := RStatus.cancelled, cancelledBy := some "member" } ∧
    transition "hku:specialist:4" resConfirmedM1 (some RStatus.cancelled) =
      PatchResult.updated
        { resConfirmedM1 with status := RStatus.cancelled, cancelledBy := some "specialist" } :=
  ⟨((cancellation_rules resPendingM1).1 "hku:member:m1" "hku" (by decide) (by decide)).1 rfl,
   (cancellation_rules resConfirmedM1).2 "hku:specialist:4" "hku" (some "4") (by decide)
     (by decide) (by decide) (Or.inr rfl)⟩

/-- C7 (counterexample): a specialist attempting a second rating for an
already-rated completed reservation fails with the members-only error, not the
duplicate-rating error: the claimed error kind is not produced regardless of
principal. -/
theorem second_rating_by_specialist_not_duplicate :
    rating_perform_create "hku:specialist:3" resCompletedM1 true =
      Except.error ApiError.onlyMembersCreateRatings ∧
    ApiError.onlyMembersCreateRatings ≠ ApiError.alreadyRated := by decide

/-- C7 (amended): when a rating already exists no attempt ever succeeds (so at
most one rating per reservation and the first rating is unchanged), but only
the owning member reaches the duplicate-rating error; other principals fail
earlier with role or ownership errors.  A successful creation implies the
reservation was completed and unrated. -/
theorem rating_uniqueness_rules (tok : String) (res : Reservation) :
    rating_perform_create tok res true ≠ Except.ok () ∧
    (∀ u : String,
       get_role_info_from_request tok = some (u, "member", some res.memberUid) → u ≠ "" →
       lowerStr res.universityCode = lowerStr u → res.status = RStatus.completed →
       rating_perform_create tok res true = Except.error ApiError.alreadyRated) ∧
    (∀ b : Bool, rating_perform_create tok res b = Except.ok () →
       res.status = RStatus.completed ∧ b = false) := by
  refine ⟨?_, ?_, ?_⟩
  · intro h
    unfold rating_perform_create at h
    repeat' split at h
    all_goals simp_all
  · intro u hparse hu huni hst
    have hrole : get_role_or_403 tok = some (u, "member", some res.memberUid) := by
      unfold get_role_or_403
      rw [hparse]
      simp [hu]
    unfold rating_perform_create
    rw [hrole]
    simp [huni, hst]
  · intro b h
    unfold rating_perform_create at h
    repeat' split at h
    all_goals simp_all

/-- C7 (witness): the second rating attempt of the owning member on a concrete
completed reservation yields the duplicate-rating error. -/
theorem rating_uniqueness_rules_witness :
    rating_perform_create "hku:member:m1" resCompletedM1 true =
      Except.error ApiError.alreadyRated :=
  (rating_uniqueness_rules "hku:member:m1" resCompletedM1).2.1 "hku" (by decide) (by decide)
    (by decide) rfl

/-- C8 (counterexample): the owning member rating a pending reservation whose
end date is already past (end day 20, viewed on day 100) is rejected with the
completed-only error: RatingViewSet.perform_create consults no clock and never
flips the status to completed. -/
theorem rating_no_lazy_completion :
    rating_perform_create "hku:member:m1" resPendingM1 false =
      Except.error ApiError.onlyRateCompleted ∧
    resPendingM1.endDate < 100 := by decide

/-- C8 (amended): for the owning member, rating a reservation whose status is
pending or confirmed always fails with the completed-only error, even when the
end date precedes the current day: no lazy completion is performed, the
current day being no input of the operation at all. -/
theorem rating_rejects_unfinished (tok u : String) (res : Reservation) (today : Nat) (b : Bool)
    (hparse : get_role_info_from_request tok = some (u, "member", some res.memberUid))
    (hu : u ≠ "")
    (huni : lowerStr res.universityCode = lowerStr u)
    (hst : res.status = RStatus.pending ∨ res.status = RStatus.confirmed)
    (_hpast : res.endDate < today) :
    rating_perform_create tok res b = Except.error ApiError.onlyRateCompleted := by
  have hrole : get_role_or_403 tok = some (u, "member", some res.memberUid) := by
    unfold get_role_or_403
    rw [hparse]
    simp [hu]
  unfold rating_perform_create
  rw [hrole]
  rcases hst with h | h <;> simp [h, huni]

/-- C8 (witness): the amended no-lazy-completion behaviour at a concrete
pending reservation with a long-past end date. -/
theorem rating_rejects_unfinished_witness :
    rating_perform_create "hku:member:m1" resConfirmedM1 false =
      Except.error ApiError.onlyRateCompleted :=
  rating_rejects_unfinished "hku:member:m1" "hku" resConfirmedM1 100 false (by decide)
    (by decide) (by decide) (Or.inr rfl) (by decide)
